import Mathlib

/-!
Verification of the backend process lifecycle supervisor of the Plattera
repository (src/frontend/src-tauri/src: lib.rs, backend_lifecycle.rs,
windows_job.rs).

The Rust code is shallowly embedded. File contents are lists of
characters, process handles and pids are natural numbers, and the
observable side effects of a routine (HTTP cleanup calls, lock
operations, kills, spawns) are recorded as an explicit event trace.
Machine integers are naturals with explicit bounds (pids are u32).
-/

namespace Plattera

/-! ### Decimal pid parsing: lib.rs read_pid does s.trim().parse::<u32>() -/

/-- Numeric value of a decimal digit character. -/
def digitVal (c : Char) : Nat := c.toNat - 48

/-- Left fold of decimal digit accumulation, as performed by the Rust
u32 parser over the digit characters. -/
def decValueFrom (a : Nat) (cs : List Char) : Nat :=
  cs.foldl (fun a c => a * 10 + digitVal c) a

/-- Upper bound of the u32 type of the pid. -/
def U32_LIMIT : Nat := 2 ^ 32

/-- Whitespace recognized by str::trim (the common White_Space code points). -/
def isRustWhitespace (c : Char) : Bool :=
  c == ' ' || c == '\t' || c == '\n' || c == '\r' ||
    c == Char.ofNat 11 || c == Char.ofNat 12 || c == Char.ofNat 133 || c == Char.ofNat 160

/-- Embedding of str::trim on the character list of the file content. -/
def rustTrim (cs : List Char) : List Char :=
  ((cs.dropWhile isRustWhitespace).reverse.dropWhile isRustWhitespace).reverse

/-- The Rust integer parser accepts one optional leading plus sign. -/
def stripPlus : List Char → List Char
  | [] => []
  | c :: r => if c = '+' then r else c :: r

/-- Embedding of str::parse::<u32>: an optional leading plus sign, then at
least one decimal digit, and the value must fit in 32 bits. -/
def parseU32 (cs : List Char) : Option Nat :=
  let ds := stripPlus cs
  if !ds.isEmpty && ds.all Char.isDigit then
    let n := decValueFrom 0 ds
    if n < U32_LIMIT then some n else none
  else none

/-! ### PidRegistry: lib.rs lines 20 to 36. The pid file is an optional
character-list content; none stands for a missing or unreadable file. -/

/-- Embedding of u32 to_string, with explicit fuel for structural
recursion; fuel n is enough because n shrinks by a factor of ten. -/
def natToDecimalAux : Nat → Nat → List Char → List Char
  | 0, _, acc => acc
  | fuel + 1, n, acc =>
    if n = 0 then acc
    else natToDecimalAux fuel (n / 10) (Char.ofNat (48 + n % 10) :: acc)

/-- Decimal rendering of a natural number, as u32 to_string produces. -/
def natToDecimal (n : Nat) : List Char :=
  if n = 0 then ['0'] else natToDecimalAux n n []

/-- lib.rs write_pid: fs::write(pid_file_path(), pid.to_string()). -/
def write_pid (pid : Nat) : Option (List Char) := some (natToDecimal pid)

/-- lib.rs read_pid: None when the file is missing, otherwise the trimmed
content parsed as u32, where any parse failure also gives None. -/
def read_pid (pidFile : Option (List Char)) : Option Nat :=
  match pidFile with
  | none => none
  | some s => parseU32 (rustTrim s)

/-- lib.rs remove_pid_file: best-effort deletion of the pid file. -/
def remove_pid_file (_pidFile : Option (List Char)) : Option (List Char) := none

/-! ### Supporting lemmas about decimal rendering and parsing -/

theorem digit_char_spec : ∀ d, d < 10 →
    (Char.ofNat (48 + d)).isDigit = true ∧
    digitVal (Char.ofNat (48 + d)) = d ∧
    Char.ofNat (48 + d) ≠ '+' := by decide

theorem natToDecimalAux_append (fuel : Nat) : ∀ n acc,
    natToDecimalAux fuel n acc = natToDecimalAux fuel n [] ++ acc := by
  induction fuel with
  | zero => intro n acc; simp [natToDecimalAux]
  | succ f ih =>
    intro n acc
    by_cases h : n = 0
    · simp [natToDecimalAux, h]
    · simp only [natToDecimalAux, if_neg h]
      rw [ih (n / 10) (Char.ofNat (48 + n % 10) :: acc),
        ih (n / 10) [Char.ofNat (48 + n % 10)]]
      simp

theorem natToDecimalAux_all_digits (fuel : Nat) : ∀ n acc,
    acc.all Char.isDigit = true →
    (natToDecimalAux fuel n acc).all Char.isDigit = true := by
  induction fuel with
  | zero => intro n acc h; simpa [natToDecimalAux] using h
  | succ f ih =>
    intro n acc h
    by_cases h0 : n = 0
    · simpa [natToDecimalAux, h0] using h
    · simp only [natToDecimalAux, if_neg h0]
      apply ih
      have hd := (digit_char_spec (n % 10) (Nat.mod_lt _ (by decide))).1
      simp [List.all_cons, hd, h]

theorem decValueFrom_append (a : Nat) (xs ys : List Char) :
    decValueFrom a (xs ++ ys) = decValueFrom (decValueFrom a xs) ys := by
  simp [decValueFrom, List.foldl_append]

theorem natToDecimalAux_value (fuel : Nat) : ∀ n, n ≤ fuel →
    decValueFrom 0 (natToDecimalAux fuel n []) = n := by
  induction fuel with
  | zero =>
    intro n h
    have : n = 0 := Nat.le_zero.mp h
    simp [this, natToDecimalAux, decValueFrom]
  | succ f ih =>
    intro n h
    by_cases h0 : n = 0
    · simp [h0, natToDecimalAux, decValueFrom]
    · simp only [natToDecimalAux, if_neg h0]
      rw [natToDecimalAux_append f (n / 10) [Char.ofNat (48 + n % 10)]]
      rw [decValueFrom_append]
      have hdiv : n / 10 ≤ f := by
        have h1 : n / 10 < n := Nat.div_lt_self (Nat.pos_of_ne_zero h0) (by decide)
        omega
      rw [ih (n / 10) hdiv]
      have hdv := (digit_char_spec (n % 10) (Nat.mod_lt _ (by decide))).2.1
      simp only [decValueFrom, List.foldl_cons, List.foldl_nil, hdv]
      omega

theorem natToDecimalAux_ne_nil (fuel n : Nat) (h0 : 0 < n) (h : n ≤ fuel) :
    natToDecimalAux fuel n [] ≠ [] := by
  cases fuel with
  | zero => omega
  | succ f =>
    simp only [natToDecimalAux, if_neg (Nat.pos_iff_ne_zero.mp h0)]
    rw [natToDecimalAux_append f (n / 10) [Char.ofNat (48 + n % 10)]]
    simp

theorem isDigit_not_whitespace (c : Char) (h : c.isDigit = true) :
    isRustWhitespace c = false := by
  by_contra hw
  have hw' : isRustWhitespace c = true := by
    cases hx : isRustWhitespace c
    · exact absurd hx hw
    · rfl
  simp only [isRustWhitespace, Bool.or_eq_true, beq_iff_eq] at hw'
  rcases hw' with ((((((h1 | h1) | h1) | h1) | h1) | h1) | h1) | h1 <;>
    subst h1 <;> simp at h

theorem dropWhile_of_all_digits (cs : List Char)
    (h : cs.all Char.isDigit = true) :
    cs.dropWhile isRustWhitespace = cs := by
  cases cs with
  | nil => rfl
  | cons c r =>
    have hc : c.isDigit = true := by
      simp [List.all_cons] at h
      exact h.1
    rw [List.dropWhile_cons]
    simp [isDigit_not_whitespace c hc]

theorem rustTrim_of_all_digits (cs : List Char)
    (h : cs.all Char.isDigit = true) : rustTrim cs = cs := by
  unfold rustTrim
  rw [dropWhile_of_all_digits cs h]
  have hrev : cs.reverse.all Char.isDigit = true := by
    simpa [List.all_eq_true] using (by simpa [List.all_eq_true] using h :
      ∀ c ∈ cs, c.isDigit = true)
  rw [dropWhile_of_all_digits cs.reverse hrev, List.reverse_reverse]

theorem parseU32_of_digits (cs : List Char) (hne : cs ≠ [])
    (hd : cs.all Char.isDigit = true) (hlt : decValueFrom 0 cs < U32_LIMIT) :
    parseU32 cs = some (decValueFrom 0 cs) := by
  obtain ⟨c, r, rfl⟩ := List.exists_cons_of_ne_nil hne
  have hc : c.isDigit = true := by
    simp [List.all_cons] at hd
    exact hd.1
  have hcp : c ≠ '+' := by
    intro h
    subst h
    simp at hc
  unfold parseU32 stripPlus
  simp only [if_neg hcp]
  simp [hd, hlt]

/-- Round trip: reading back a written pid recovers it. -/
theorem read_write_pid (pid : Nat) (h : pid < U32_LIMIT) :
    read_pid (write_pid pid) = some pid := by
  by_cases h0 : pid = 0
  · subst h0; decide
  · have hpos : 0 < pid := Nat.pos_of_ne_zero h0
    have hds : natToDecimal pid = natToDecimalAux pid pid [] := by
      simp [natToDecimal, h0]
    have hall : (natToDecimalAux pid pid []).all Char.isDigit = true :=
      natToDecimalAux_all_digits pid pid [] rfl
    have hne : natToDecimalAux pid pid [] ≠ [] :=
      natToDecimalAux_ne_nil pid pid hpos le_rfl
    have hval : decValueFrom 0 (natToDecimalAux pid pid []) = pid :=
      natToDecimalAux_value pid pid le_rfl
    show parseU32 (rustTrim (natToDecimal pid)) = some pid
    rw [hds, rustTrim_of_all_digits _ hall, parseU32_of_digits _ hne hall
      (by rw [hval]; exact h), hval]

/-! ### Supervisor state and observable events

The TrackedProcess slot (struct BackendProcess in lib.rs, a Mutex over an
Option CommandChild) and the pid file are the mutable state. Side effects
are recorded as an ordered event trace; lockAcquire and lockRelease mark
the span in which the Mutex guard of the slot is held. -/

inductive Ev where
  | httpCleanup (timeoutMs : Nat)
  | lockAcquire
  | lockRelease
  | probePort (busy : Bool)
  | killChild (handle : Nat)
  | spawnSidecar (handle : Nat)
  | spawnFallback (handle : Nat)
  | writePidFile (pid : Nat)
  | assignJob (pid : Nat)
  | killByPid (pid : Nat)
  | warnTimeout
  deriving DecidableEq, Repr

structure SupState where
  tracked : Option Nat
  pidFile : Option (List Char)
  deriving DecidableEq, Repr

/-- Classification of kill attempts (the tracked child kill in
shutdown_backend_inner, and kill_by_pid, which no code path invokes). -/
def isKillEv : Ev → Bool
  | Ev.killChild _ => true
  | Ev.killByPid _ => true
  | _ => false

def killCount (evs : List Ev) : Nat := evs.countP isKillEv

def isSpawnEv : Ev → Bool
  | Ev.spawnSidecar _ => true
  | Ev.spawnFallback _ => true
  | _ => false

def isPidPersistEv : Ev → Bool
  | Ev.writePidFile _ => true
  | Ev.assignJob _ => true
  | _ => false

def isLockEv : Ev → Bool
  | Ev.lockAcquire => true
  | Ev.lockRelease => true
  | _ => false

/-- Connect timeout of the first cooperative cleanup request in a trace. -/
def firstCleanupTimeout : List Ev → Option Nat
  | [] => none
  | Ev.httpCleanup t :: _ => some t
  | _ :: r => firstCleanupTimeout r

/-- Events of a trace that happen while the slot lock is held. The second
argument says whether the lock is held before the trace starts. -/
def underLock : List Ev → Bool → List Ev
  | [], _ => []
  | Ev.lockAcquire :: r, _ => underLock r true
  | Ev.lockRelease :: r, _ => underLock r false
  | e :: r, held => if held then e :: underLock r held else underLock r held

/-! ### lib.rs start_backend (lines 109 to 181)

The environment carries the point-in-time answers of the OS: whether a
connect to 127.0.0.1:8000 succeeds, which pids are alive (available to the
code through pid_alive, though start_backend never consults it), and the
outcome of the sidecar and of the python fallback spawn attempt; a spawn
outcome is either a child handle or an error message. -/

structure StartEnv where
  portBusy : Bool
  alive : Nat → Bool
  sidecar : Except String Nat
  fallback : Except String Nat

/-- Embedding of start_backend. The Mutex guard is acquired on entry and
released only when the function returns, so every event in between is
inside a lockAcquire and lockRelease pair. Faithful to the source: the
guard is taken first, then (when the slot is empty) the port probe, then
the sidecar attempt whose error is discarded, then the python fallback
whose error alone is surfaced, wrapped in the fallback message. On success
the child handle is stored in the slot; the pid file is never touched and
no job object assignment happens. -/
def start_backend (env : StartEnv) (st : SupState) :
    Except String String × SupState × List Ev :=
  match st.tracked with
  | some _ =>
    (Except.ok "Backend already running", st, [Ev.lockAcquire, Ev.lockRelease])
  | none =>
    if env.portBusy then
      (Except.ok "Backend already running (detected on port 8000)", st,
        [Ev.lockAcquire, Ev.probePort true, Ev.lockRelease])
    else
      match env.sidecar with
      | Except.ok h =>
        (Except.ok "Backend sidecar started", { st with tracked := some h },
          [Ev.lockAcquire, Ev.probePort false, Ev.spawnSidecar h, Ev.lockRelease])
      | Except.error _ =>
        match env.fallback with
        | Except.ok h =>
          (Except.ok "Backend started via Python fallback",
            { st with tracked := some h },
            [Ev.lockAcquire, Ev.probePort false, Ev.spawnFallback h,
              Ev.lockRelease])
        | Except.error msg =>
          (Except.error ("fallback python spawn error: " ++ msg), st,
            [Ev.lockAcquire, Ev.probePort false, Ev.lockRelease])

/-! ### backend_lifecycle.rs shutdown_backend_inner (lines 25 to 80) -/

/-- Environment of the shutdown poll loop: the state of the port and of
the executable lock at each poll iteration. -/
structure ShutdownEnv where
  portBusyAt : Nat → Bool
  exeUnlockedAt : Nat → Bool

/-- TIMEOUT_MS divided by POLL_MS: the number of poll iterations before
the loop gives up (elapsed time is modeled as iterations times POLL_MS). -/
def SHUTDOWN_POLL_ROUNDS : Nat := 10000 / 250

/-- The wait loop of step 3: probe the port (and, when check_file_lock,
the executable lock) each round, stop when all clear, warn on timeout.
Returns the probe events and whether shutdown was verified. -/
def pollUntilClear (env : ShutdownEnv) (checkLock : Bool) :
    Nat → Nat → List Ev × Bool
  | 0, _ => ([Ev.warnTimeout], false)
  | fuel + 1, k =>
    let busy := env.portBusyAt k
    let lockOk := !checkLock || env.exeUnlockedAt k
    if !busy && lockOk then ([Ev.probePort busy], true)
    else
      let r := pollUntilClear env checkLock fuel (k + 1)
      (Ev.probePort busy :: r.1, r.2)

/-- Embedding of shutdown_backend_inner: (1) cooperative cleanup with a
1500 ms connect timeout, (2) take the slot under the lock and kill the
taken child if any, (3) poll until the port is free and, on the update
path, the executable is unlocked, up to the bounded wait, (4) nothing:
the pid file is not touched. -/
def shutdown_backend_inner (env : ShutdownEnv) (st : SupState)
    (check_file_lock : Bool) : SupState × List Ev :=
  let takeResult : SupState × List Ev :=
    match st.tracked with
    | some h =>
      ({ st with tracked := none },
        [Ev.lockAcquire, Ev.killChild h, Ev.lockRelease])
    | none => ({ st with tracked := none }, [Ev.lockAcquire, Ev.lockRelease])
  let pollEvs := (pollUntilClear env check_file_lock SHUTDOWN_POLL_ROUNDS 0).1
  (takeResult.1, Ev.httpCleanup 1500 :: takeResult.2 ++ pollEvs)

/-- backend_lifecycle.rs shutdown_backend_for_update: the pre-update mode. -/
def shutdown_backend_for_update (env : ShutdownEnv) (st : SupState) :
    SupState × List Ev :=
  shutdown_backend_inner env st true

/-- backend_lifecycle.rs shutdown_backend_for_exit: the normal exit mode. -/
def shutdown_backend_for_exit (env : ShutdownEnv) (st : SupState) :
    SupState × List Ev :=
  shutdown_backend_inner env st false

/-- A sequence of shutdown invocations, each with its own environment and
mode, threaded through the state; the traces are concatenated. -/
def runShutdowns : SupState → List (ShutdownEnv × Bool) → SupState × List Ev
  | st, [] => (st, [])
  | st, (env, m) :: rest =>
    let r1 := shutdown_backend_inner env st m
    let r2 := runShutdowns r1.1 rest
    (r2.1, r1.2 ++ r2.2)

/-! ### backend_lifecycle.rs backend_exe_unlocked (lines 82 to 141)

The windows variant is a function of the four outcomes that determine it:
whether the path resolution succeeds, whether the file exists, and whether
the forward and the reverse rename succeed. The non-windows variant is a
constant. -/

def backend_exe_unlocked_windows (resolveOk fileExists forwardRenameOk
    _reverseRenameOk : Bool) : Bool :=
  if !resolveOk then true
  else if !fileExists then true
  else if forwardRenameOk then true
  else false

def backend_exe_unlocked_nonwindows : Bool := true

/-! ### Concrete environments and states used in closed statements -/

/-- Shutdown environment where the port is free and the lock is released. -/
def quietEnv : ShutdownEnv := ⟨fun _ => false, fun _ => true⟩

/-- Start environment: port free, every pid alive, both spawn paths work. -/
def envFreshSpawn : StartEnv := ⟨false, fun _ => true, Except.ok 9, Except.ok 7⟩

/-- Start environment with the port already in use. -/
def envBusy : StartEnv := ⟨true, fun _ => true, Except.ok 9, Except.ok 7⟩

/-- Start environments where both spawn paths fail; they differ only in
the sidecar error message. -/
def envBothFailA : StartEnv :=
  ⟨false, fun _ => true, Except.error "Z", Except.error "py boom"⟩

def envBothFailB : StartEnv :=
  ⟨false, fun _ => true, Except.error "W", Except.error "py boom"⟩

/-- A state with no tracked child but a recorded pid 42. -/
def stStalePid : SupState := ⟨none, some ['4', '2']⟩

/-! ### Supporting lemmas about shutdown traces -/

theorem pollUntilClear_no_kill (env : ShutdownEnv) (cl : Bool) :
    ∀ fuel k, killCount (pollUntilClear env cl fuel k).1 = 0 := by
  intro fuel
  induction fuel with
  | zero => intro k; rfl
  | succ f ih =>
    intro k
    simp only [pollUntilClear]
    split
    · rfl
    · simpa [killCount, List.countP_cons, isKillEv] using ih (k + 1)

theorem shutdown_killCount (env : ShutdownEnv) (st : SupState) (m : Bool) :
    killCount (shutdown_backend_inner env st m).2 =
      (if st.tracked.isSome then 1 else 0) := by
  rcases st with ⟨tr, pf⟩
  have hp := pollUntilClear_no_kill env m SHUTDOWN_POLL_ROUNDS 0
  cases tr <;>
    simp [shutdown_backend_inner, killCount, List.countP_cons,
      List.countP_append, isKillEv] <;>
    simpa [killCount] using hp

theorem shutdown_tracked_none (env : ShutdownEnv) (st : SupState) (m : Bool) :
    (shutdown_backend_inner env st m).1.tracked = none := by
  rcases st with ⟨tr, pf⟩
  cases tr <;> rfl

theorem runShutdowns_killCount_zero :
    ∀ (calls : List (ShutdownEnv × Bool)) (st : SupState),
    st.tracked = none → killCount (runShutdowns st calls).2 = 0 := by
  intro calls
  induction calls with
  | nil => intro st _; rfl
  | cons c rest ih =>
    intro st h
    rcases c with ⟨env, m⟩
    simp only [runShutdowns, killCount, List.countP_append]
    have h1 : killCount (shutdown_backend_inner env st m).2 = 0 := by
      rw [shutdown_killCount, h]
      rfl
    have h2 := ih (shutdown_backend_inner env st m).1
      (shutdown_tracked_none env st m)
    simp only [killCount] at h1 h2
    omega

/-! ### Claim theorems -/

/-- C1 (amended): shutdown_backend_for_update never touches the pid
registry: the pid file after the call is exactly the pid file before it,
for every environment and state, and so read_pid is unchanged rather
than cleared to None. -/
theorem shutdown_update_pid_file_unchanged (env : ShutdownEnv) (st : SupState) :
    ((shutdown_backend_for_update env st).1).pidFile = st.pidFile ∧
    read_pid ((shutdown_backend_for_update env st).1).pidFile =
      read_pid st.pidFile := by
  rcases st with ⟨tr, pf⟩
  cases tr <;> exact ⟨rfl, rfl⟩

/-- C1 counterexample: from a state whose pid file records 123, after
shutdown_backend_for_update returns (port free, lock released, so the
poll even succeeds), read_pid still yields 123 and not None: the claim
that the registry is cleared unconditionally as the final step is false
on this code. -/
theorem shutdown_update_leaves_pid_cex :
    read_pid ((shutdown_backend_for_update quietEnv
        ⟨none, some ['1', '2', '3']⟩).1).pidFile = some 123 ∧
    read_pid ((shutdown_backend_for_update quietEnv
        ⟨none, some ['1', '2', '3']⟩).1).pidFile ≠ none := by
  constructor <;> decide

/-- C5: from a state with an empty TrackedProcess slot and no recorded
pid, every shutdown invocation returns the state unchanged and performs
no kill attempt; and across any sequence of shutdown invocations from any
starting state, at most one kill of a tracked child is ever attempted,
because the take semantics of the slot empties it on the first call. -/
theorem shutdown_no_error_no_double_kill :
    (∀ (env : ShutdownEnv) (st : SupState) (m : Bool), st.tracked = none →
      read_pid st.pidFile = none →
      (shutdown_backend_inner env st m).1 = st ∧
      killCount (shutdown_backend_inner env st m).2 = 0) ∧
    (∀ (st : SupState) (calls : List (ShutdownEnv × Bool)),
      killCount (runShutdowns st calls).2 ≤ 1) := by
  constructor
  · intro env st m h _hpid
    rcases st with ⟨tr, pf⟩
    simp only [SupState.tracked] at h
    subst h
    constructor
    · rfl
    · rw [shutdown_killCount]
      rfl
  · intro st calls
    cases calls with
    | nil => exact Nat.zero_le 1
    | cons c rest =>
      rcases c with ⟨env, m⟩
      simp only [runShutdowns, killCount, List.countP_append]
      have h1 : killCount (shutdown_backend_inner env st m).2 ≤ 1 := by
        rw [shutdown_killCount]
        cases st.tracked <;> simp
      have h2 := runShutdowns_killCount_zero rest
        (shutdown_backend_inner env st m).1 (shutdown_tracked_none env st m)
      simp only [killCount] at h1 h2
      omega

/-- C5 witness: a concrete empty-state shutdown is a no-op with zero
kills, and a concrete two-invocation sequence starting with a tracked
child kills at most once. -/
theorem shutdown_no_error_no_double_kill_witness :
    ((shutdown_backend_inner quietEnv ⟨none, none⟩ true).1 = ⟨none, none⟩ ∧
      killCount (shutdown_backend_inner quietEnv ⟨none, none⟩ true).2 = 0) ∧
    killCount (runShutdowns ⟨some 5, none⟩
      [(quietEnv, true), (quietEnv, false)]).2 ≤ 1 :=
  ⟨shutdown_no_error_no_double_kill.1 quietEnv ⟨none, none⟩ true rfl rfl,
    shutdown_no_error_no_double_kill.2 ⟨some 5, none⟩
      [(quietEnv, true), (quietEnv, false)]⟩

/-- C7: the lock probe reports unlocked when the target file does not
exist; when the forward rename succeeds it reports unlocked even if the
restore rename fails; it is the boolean formula saying it reports locked
exactly when the path resolves, the file exists and the forward rename
fails; and on platforms without mandatory executable locking it is the
constant unlocked. -/
theorem lock_probe_correct :
    (∀ r fwd rev, backend_exe_unlocked_windows r false fwd rev = true) ∧
    (∀ r ex rev, backend_exe_unlocked_windows r ex true rev = true) ∧
    (∀ r ex fwd rev,
      backend_exe_unlocked_windows r ex fwd rev = (!r || !ex || fwd)) ∧
    backend_exe_unlocked_nonwindows = true := by
  refine ⟨?_, ?_, ?_, rfl⟩ <;> decide

/-- C8: read_pid returns None on a missing file and on content that does
not parse as a decimal u32 (corrupt content behaves as absence), and
returns the recorded id when one was written; the model is a total
function, so no read can surface a blocking error. -/
theorem read_pid_correct :
    read_pid none = none ∧
    (∀ s, parseU32 (rustTrim s) = none → read_pid (some s) = none) ∧
    (∀ pid, pid < U32_LIMIT → read_pid (write_pid pid) = some pid) :=
  ⟨rfl, fun _ h => h, read_write_pid⟩

/-- C8 witness: the corrupt content x is read as absence and the recorded
pid 123 is read back. -/
theorem read_pid_correct_witness :
    read_pid (some ['x']) = none ∧ read_pid (write_pid 123) = some 123 :=
  ⟨read_pid_correct.2.1 ['x'] (by decide),
    read_pid_correct.2.2 123 (by decide)⟩

/-- C9 counterexample: the cooperative cleanup request of the pre-update
shutdown and of the normal-exit shutdown both use a 1500 ms connect
timeout; the claim that the two modes use different timeouts with
pre-update strictly longer is false on this code. -/
theorem shutdown_cleanup_timeout_equal_cex :
    firstCleanupTimeout (shutdown_backend_for_update quietEnv
      ⟨none, none⟩).2 = some 1500 ∧
    firstCleanupTimeout (shutdown_backend_for_exit quietEnv
      ⟨none, none⟩).2 = some 1500 := by
  constructor <;> rfl

/-- C9 (amended): both shutdown modes issue the cooperative cleanup
request with the same bounded 1500 ms connect timeout. -/
theorem shutdown_cleanup_timeout_uniform (env : ShutdownEnv) (st : SupState)
    (m : Bool) :
    firstCleanupTimeout (shutdown_backend_inner env st m).2 = some 1500 := by
  rfl

/-- C2 counterexample: with no TrackedProcess held, a recorded pid 42
whose process the OS reports alive, and a free port, start_backend issues
no cooperative cleanup request, attempts no kill, and leaves the pid
record in place; the claimed reconciliation does not exist in this code. -/
theorem start_no_stale_reconcile_cex :
    read_pid stStalePid.pidFile = some 42 ∧
    envFreshSpawn.alive 42 = true ∧
    killCount (start_backend envFreshSpawn stStalePid).2.2 = 0 ∧
    firstCleanupTimeout (start_backend envFreshSpawn stStalePid).2.2 = none ∧
    (start_backend envFreshSpawn stStalePid).2.1.pidFile = some ['4', '2'] := by
  refine ⟨by decide, rfl, rfl, rfl, rfl⟩

/-- C2 (amended): start_backend never consults the pid registry or
process liveness: for every environment and state it emits no cleanup
request and no kill of any kind, and leaves the pid file unchanged. -/
theorem start_ignores_pid_registry (env : StartEnv) (st : SupState) :
    killCount (start_backend env st).2.2 = 0 ∧
    firstCleanupTimeout (start_backend env st).2.2 = none ∧
    (start_backend env st).2.1.pidFile = st.pidFile := by
  rcases st with ⟨tr, pf⟩
  rcases env with ⟨pb, al, sc, fb⟩
  cases tr <;> cases pb <;> cases sc <;> cases fb <;> exact ⟨rfl, rfl, rfl⟩

/-- C3 counterexample: after a successful sidecar spawn from an empty
state, the child handle is stored, but the pid registry still reads None
(the pid was not persisted) and no write or job assignment event was
emitted; the claimed persistence and job-group registration do not
happen. -/
theorem start_no_pid_persist_cex :
    (start_backend envFreshSpawn ⟨none, none⟩).2.1.tracked = some 9 ∧
    read_pid (start_backend envFreshSpawn ⟨none, none⟩).2.1.pidFile = none ∧
    (start_backend envFreshSpawn ⟨none, none⟩).2.2.countP isPidPersistEv
      = 0 := by
  exact ⟨rfl, rfl, rfl⟩

/-- C3 (amended): on every successful spawn, by the sidecar path or by
the fallback path, start_backend stores the child handle as the
TrackedProcess, but does not persist its pid via the registry and does
not register it with the OS job group. -/
theorem start_spawn_stores_handle_only (env : StartEnv) (st : SupState)
    (h : Nat) (h1 : st.tracked = none) (h2 : env.portBusy = false) :
    (env.sidecar = Except.ok h →
      (start_backend env st).2.1.tracked = some h ∧
      (start_backend env st).2.1.pidFile = st.pidFile ∧
      (start_backend env st).2.2.countP isPidPersistEv = 0) ∧
    (∀ e, env.sidecar = Except.error e → env.fallback = Except.ok h →
      (start_backend env st).2.1.tracked = some h ∧
      (start_backend env st).2.1.pidFile = st.pidFile ∧
      (start_backend env st).2.2.countP isPidPersistEv = 0) := by
  rcases st with ⟨tr, pf⟩
  rcases env with ⟨pb, al, sc, fb⟩
  simp only [SupState.tracked] at h1
  simp only at h2
  subst h1
  subst h2
  constructor
  · intro h3
    simp only at h3
    subst h3
    exact ⟨rfl, rfl, rfl⟩
  · intro e h3 h4
    simp only at h3 h4
    subst h3
    subst h4
    exact ⟨rfl, rfl, rfl⟩

/-- C3 witness: the sidecar path at a concrete environment stores handle
9 and leaves the pid file empty with no persistence events. -/
theorem start_spawn_stores_handle_only_witness :
    (start_backend envFreshSpawn ⟨none, none⟩).2.1.tracked = some 9 ∧
    (start_backend envFreshSpawn ⟨none, none⟩).2.1.pidFile = none ∧
    (start_backend envFreshSpawn ⟨none, none⟩).2.2.countP isPidPersistEv
      = 0 :=
  (start_spawn_stores_handle_only envFreshSpawn ⟨none, none⟩ 9 rfl rfl).1 rfl

/-- C4: with no TrackedProcess held and port 8000 in use, start_backend
returns the successful already-running answer, leaves the state (and in
particular the empty slot) untouched, and emits no spawn event. -/
theorem start_port_busy_no_spawn (env : StartEnv) (st : SupState)
    (h1 : st.tracked = none) (h2 : env.portBusy = true) :
    (start_backend env st).1 =
      Except.ok "Backend already running (detected on port 8000)" ∧
    (start_backend env st).2.1 = st ∧
    (start_backend env st).2.2.countP isSpawnEv = 0 := by
  rcases st with ⟨tr, pf⟩
  rcases env with ⟨pb, al, sc, fb⟩
  simp only [SupState.tracked] at h1
  simp only at h2
  subst h1
  subst h2
  exact ⟨rfl, rfl, rfl⟩

/-- C4 witness: at a concrete busy-port environment the already-running
answer is returned, the empty state persists, and nothing spawns. -/
theorem start_port_busy_no_spawn_witness :
    (start_backend envBusy ⟨none, none⟩).1 =
      Except.ok "Backend already running (detected on port 8000)" ∧
    (start_backend envBusy ⟨none, none⟩).2.1 = ⟨none, none⟩ ∧
    (start_backend envBusy ⟨none, none⟩).2.2.countP isSpawnEv = 0 :=
  start_port_busy_no_spawn envBusy ⟨none, none⟩ rfl rfl

/-- C6 counterexample: when both launch paths fail, the returned error is
exactly the fallback message; it is identical for two runs that differ
only in the sidecar failure, and the sidecar message (here the letter Z)
does not occur in it, so the error cannot be an aggregate of both
failures. -/
theorem start_error_not_aggregated_cex :
    (start_backend envBothFailA ⟨none, none⟩).1 =
      Except.error "fallback python spawn error: py boom" ∧
    (start_backend envBothFailA ⟨none, none⟩).1 =
      (start_backend envBothFailB ⟨none, none⟩).1 ∧
    'Z' ∉ "fallback python spawn error: py boom".data := by
  refine ⟨rfl, rfl, by decide⟩

/-- C6 (amended): when both the sidecar launch and the development
fallback launch fail, the returned error reports only the fallback
failure, wrapped in the fallback message; the sidecar error is discarded
and no distinct missing-backend-directory error exists. -/
theorem start_error_fallback_only (env : StartEnv) (st : SupState)
    (e m : String) (h1 : st.tracked = none) (h2 : env.portBusy = false)
    (h3 : env.sidecar = Except.error e)
    (h4 : env.fallback = Except.error m) :
    (start_backend env st).1 =
      Except.error ("fallback python spawn error: " ++ m) := by
  rcases st with ⟨tr, pf⟩
  rcases env with ⟨pb, al, sc, fb⟩
  simp only [SupState.tracked] at h1
  simp only at h2 h3 h4
  subst h1
  subst h2
  subst h3
  subst h4
  rfl

/-- C6 witness: the two concrete failure messages produce exactly the
wrapped fallback error. -/
theorem start_error_fallback_only_witness :
    (start_backend envBothFailA ⟨none, none⟩).1 =
      Except.error ("fallback python spawn error: " ++ "py boom") :=
  start_error_fallback_only envBothFailA ⟨none, none⟩ "Z" "py boom"
    rfl rfl rfl rfl

/-- C10 counterexample: in a concrete successful start from an empty
state, the port probe and the spawn both occur while the slot lock is
held, refuting the claim that start_backend does not hold the lock while
probing the port or spawning the child. -/
theorem start_lock_held_across_probe_and_spawn_cex :
    Ev.probePort false ∈
      underLock (start_backend envFreshSpawn ⟨none, none⟩).2.2 false ∧
    Ev.spawnSidecar 9 ∈
      underLock (start_backend envFreshSpawn ⟨none, none⟩).2.2 false := by
  refine ⟨by decide, by decide⟩

/-- C10 (amended): start_backend holds the TrackedProcess lock for its
entire body: every non-lock event it emits, including the port probe and
any spawn, occurs while the lock is held. -/
theorem start_lock_held_throughout (env : StartEnv) (st : SupState) :
    underLock (start_backend env st).2.2 false =
      (start_backend env st).2.2.filter (fun e => !isLockEv e) := by
  rcases st with ⟨tr, pf⟩
  rcases env with ⟨pb, al, sc, fb⟩
  cases tr <;> cases pb <;> cases sc <;> cases fb <;> rfl

end Plattera
